import Mathlib

/-!
Shallow embedding of the Logseq AI-Helper plugin core (the variant with both
the OpenAI and Claude providers), covering:
  - the two Provider Clients (OpenAIProvider, ClaudeProvider) and their
    makeRequest / four text operations,
  - the AIManager (setProvider, executeAICommand, the initialize lifecycle),
  - the Command Layer handlers (getSelectedText plus the four slash-command
    actions).

Effects are modelled explicitly: the vendor HTTP endpoint is an oracle
`Fetch : String → String → HttpResponse` (keyed by URL and prompt; headers,
model name and temperature are not observable by any claim), and each
function that performs external calls returns, next to its result, the list
of `Event`s it emitted (network requests, provider-method invocations, host
notifications, block insertions) in order.  A thrown JS `Error` is modelled
as `Except.error message`.
-/

namespace AIHelper

/-- Minimal JSON value model, sufficient for the response shapes the code
reads (`data.choices[0].message.content` and `data.content[0].text`). -/
inductive Json where
  | str (s : String)
  | num (n : Int)
  | arr (elems : List Json)
  | obj (fields : List (String × Json))
  | null

/-- JS property access `j[k]` on an object; `none` models `undefined`. -/
def Json.get? (j : Json) (k : String) : Option Json :=
  match j with
  | .obj fields => (fields.find? (fun f => f.fst = k)).map (fun f => f.snd)
  | _ => none

/-- JS index access `j[i]` on an array; `none` models `undefined`. -/
def Json.at? (j : Json) (i : Nat) : Option Json :=
  match j with
  | .arr elems => elems.get? i
  | _ => none

/-- A JSON value read as a string; `none` when it is not a string (in which
case calling a string method on it raises a runtime TypeError). -/
def Json.asString? (j : Json) : Option String :=
  match j with
  | .str s => some s
  | _ => none

/-- An HTTP response as the code observes it: `response.ok`,
`response.statusText`, and the parsed JSON body. -/
structure HttpResponse where
  ok : Bool
  statusText : String
  body : Json

/-- The vendor endpoint oracle: what `fetch(url, ...)` with a given prompt in
the request body returns. -/
def Fetch : Type := String → String → HttpResponse

/-- Observable external effects of the plugin code. -/
inductive Event where
  /-- An outbound network request to `url` carrying `prompt`. -/
  | fetchCall (url : String) (prompt : String)
  /-- Entry into a provider operation (provider name, method name). -/
  | providerCall (provider : String) (method : String)
  /-- Host call `logseq.App.showMsg(message, level)`. -/
  | showMsg (message : String) (level : String)
  /-- Host call `logseq.Editor.insertBlock(uuid, content, after: true)`. -/
  | insertBlock (uuid : String) (content : String)
deriving DecidableEq

def Event.isInsert : Event → Bool
  | .insertBlock _ _ => true
  | _ => false

def Event.isShowMsg : Event → Bool
  | .showMsg _ _ => true
  | _ => false

def Event.isErrorMsg : Event → Bool
  | .showMsg _ "error" => true
  | _ => false

/-- Message of the runtime TypeError raised when the response body lacks the
expected shape; its exact text is host-defined and no theorem depends on it. -/
def runtimeTypeErrorMsg : String := "TypeError"

/-- JS `String.prototype.toLowerCase()` over the character range the code
uses; defined by structural recursion on the character list so concrete
instances evaluate inside proofs. -/
def jsToLower (s : String) : String := ⟨s.data.map Char.toLower⟩

/-- JS `String.prototype.trim()`: drop leading and trailing whitespace;
defined by structural recursion on the character list so concrete instances
evaluate inside proofs. -/
def jsTrim (s : String) : String :=
  ⟨(((s.data.dropWhile Char.isWhitespace).reverse.dropWhile
      Char.isWhitespace).reverse)⟩

/-- OpenAIProvider.baseUrl. -/
def openAIBaseUrl : String := "https://api.openai.com/v1/chat/completions"

/-- ClaudeProvider.baseUrl. -/
def claudeBaseUrl : String := "https://api.anthropic.com/v1/messages"

/-- Extraction path `data.choices[0].message.content` of the OpenAI
response shape. -/
def openAIExtract (body : Json) : Option String :=
  ((((body.get? "choices").bind (fun j => j.at? 0)).bind
      (fun j => j.get? "message")).bind
      (fun j => j.get? "content")).bind Json.asString?

/-- Extraction path `data.content[0].text` of the Claude response shape. -/
def claudeExtract (body : Json) : Option String :=
  (((body.get? "content").bind (fun j => j.at? 0)).bind
      (fun j => j.get? "text")).bind Json.asString?

/-- OpenAI Provider: stateless apart from its credential. -/
structure OpenAIProvider where
  apiKey : String
deriving DecidableEq

def OpenAIProvider.name (_ : OpenAIProvider) : String := "OpenAI"

/-- OpenAIProvider.makeRequest: one fetch to the OpenAI endpoint; non-ok
status throws `API request failed: {statusText}` (braces here are template
notation in this comment only); a well-formed body yields the content
trimmed; a malformed body raises a runtime TypeError, rethrown unchanged by
the catch block. -/
def OpenAIProvider.makeRequest (_p : OpenAIProvider) (fetch : Fetch)
    (prompt : String) : Except String String × List Event :=
  let resp := fetch openAIBaseUrl prompt
  let r : Except String String :=
    if resp.ok then
      match openAIExtract resp.body with
      | some content => .ok (jsTrim content)
      | none => .error runtimeTypeErrorMsg
    else .error ("API request failed: " ++ resp.statusText)
  (r, [.fetchCall openAIBaseUrl prompt])

def OpenAIProvider.summarizeText (p : OpenAIProvider) (fetch : Fetch)
    (text : String) : Except String String × List Event :=
  let call := p.makeRequest fetch
    ("Please provide a concise summary of the following text:\n\n" ++ text)
  (call.fst, .providerCall "OpenAI" "summarizeText" :: call.snd)

def OpenAIProvider.improveWriting (p : OpenAIProvider) (fetch : Fetch)
    (text : String) : Except String String × List Event :=
  let call := p.makeRequest fetch
    ("Please improve the following text while maintaining its core message:\n\n" ++ text)
  (call.fst, .providerCall "OpenAI" "improveWriting" :: call.snd)

def OpenAIProvider.changeWritingStyle (p : OpenAIProvider) (fetch : Fetch)
    (text : String) (style : String) : Except String String × List Event :=
  let call := p.makeRequest fetch
    ("Please rewrite the following text in a " ++ style ++ " style:\n\n" ++ text)
  (call.fst, .providerCall "OpenAI" "changeWritingStyle" :: call.snd)

def OpenAIProvider.completeText (p : OpenAIProvider) (fetch : Fetch)
    (text : String) : Except String String × List Event :=
  let call := p.makeRequest fetch
    ("Please complete the following text naturally:\n\n" ++ text)
  (call.fst, .providerCall "OpenAI" "completeText" :: call.snd)

/-- Claude (Anthropic) Provider: stateless apart from its credential. -/
structure ClaudeProvider where
  apiKey : String
deriving DecidableEq

def ClaudeProvider.name (_ : ClaudeProvider) : String := "Claude"

/-- ClaudeProvider.makeRequest: one fetch to the Anthropic endpoint; non-ok
status throws `API request failed: {statusText}` (template notation in this
comment only); a well-formed body yields `data.content[0].text` WITHOUT
trimming (the source has no `.trim()` here, unlike the OpenAI provider). -/
def ClaudeProvider.makeRequest (_p : ClaudeProvider) (fetch : Fetch)
    (prompt : String) : Except String String × List Event :=
  let resp := fetch claudeBaseUrl prompt
  let r : Except String String :=
    if resp.ok then
      match claudeExtract resp.body with
      | some content => .ok content
      | none => .error runtimeTypeErrorMsg
    else .error ("API request failed: " ++ resp.statusText)
  (r, [.fetchCall claudeBaseUrl prompt])

def ClaudeProvider.summarizeText (p : ClaudeProvider) (fetch : Fetch)
    (text : String) : Except String String × List Event :=
  let call := p.makeRequest fetch
    ("Please provide a concise summary of the following text:\n\n" ++ text)
  (call.fst, .providerCall "Claude" "summarizeText" :: call.snd)

def ClaudeProvider.improveWriting (p : ClaudeProvider) (fetch : Fetch)
    (text : String) : Except String String × List Event :=
  let call := p.makeRequest fetch
    ("Please improve the following text while maintaining its core message:\n\n" ++ text)
  (call.fst, .providerCall "Claude" "improveWriting" :: call.snd)

def ClaudeProvider.changeWritingStyle (p : ClaudeProvider) (fetch : Fetch)
    (text : String) (style : String) : Except String String × List Event :=
  let call := p.makeRequest fetch
    ("Please rewrite the following text in a " ++ style ++ " style:\n\n" ++ text)
  (call.fst, .providerCall "Claude" "changeWritingStyle" :: call.snd)

def ClaudeProvider.completeText (p : ClaudeProvider) (fetch : Fetch)
    (text : String) : Except String String × List Event :=
  let call := p.makeRequest fetch
    ("Please complete the following text naturally:\n\n" ++ text)
  (call.fst, .providerCall "Claude" "completeText" :: call.snd)

/-- The AIProvider interface: one variant per vendor implementation. -/
inductive AIProvider where
  | openai (p : OpenAIProvider)
  | claude (p : ClaudeProvider)
deriving DecidableEq

/-- The `name` field of the active provider instance. -/
def AIProvider.name : AIProvider → String
  | .openai p => p.name
  | .claude p => p.name

def AIProvider.summarizeText : AIProvider → Fetch → String →
    Except String String × List Event
  | .openai p, fetch, text => p.summarizeText fetch text
  | .claude p, fetch, text => p.summarizeText fetch text

def AIProvider.improveWriting : AIProvider → Fetch → String →
    Except String String × List Event
  | .openai p, fetch, text => p.improveWriting fetch text
  | .claude p, fetch, text => p.improveWriting fetch text

def AIProvider.changeWritingStyle : AIProvider → Fetch → String → String →
    Except String String × List Event
  | .openai p, fetch, text, style => p.changeWritingStyle fetch text style
  | .claude p, fetch, text, style => p.changeWritingStyle fetch text style

def AIProvider.completeText : AIProvider → Fetch → String →
    Except String String × List Event
  | .openai p, fetch, text => p.completeText fetch text
  | .claude p, fetch, text => p.completeText fetch text

/-- The four operations of the AIProvider interface, for quantifying over
"every provider operation". -/
inductive ProviderOpKind where
  | summarize
  | improve
  | style
  | complete
deriving DecidableEq

/-- Run the selected interface operation of a provider. -/
def AIProvider.runOp (prov : AIProvider) (op : ProviderOpKind) (fetch : Fetch)
    (text : String) (style : String) : Except String String × List Event :=
  match op with
  | .summarize => prov.summarizeText fetch text
  | .improve => prov.improveWriting fetch text
  | .style => prov.changeWritingStyle fetch text style
  | .complete => prov.completeText fetch text

/-- The persisted configuration object (settings key `aiConfig`). -/
structure AIConfig where
  provider : String
  apiKey : String
deriving DecidableEq

/-- The AI Service Manager state: the active provider (null when
unconfigured) and the loaded config. -/
structure AIManager where
  provider : Option AIProvider
  config : Option AIConfig
deriving DecidableEq

/-- AIManager.setProvider: switch on `providerName.toLowerCase()`;
`openai` and `claude` install the matching provider, anything else throws
`Unsupported AI provider: ...` before any assignment. -/
def AIManager.setProvider (m : AIManager) (providerName apiKey : String) :
    Except String AIManager :=
  if jsToLower providerName = "openai" then
    .ok { m with provider := some (.openai ⟨apiKey⟩) }
  else if jsToLower providerName = "claude" then
    .ok { m with provider := some (.claude ⟨apiKey⟩) }
  else
    .error ("Unsupported AI provider: " ++ providerName)

/-- Models `style || "professional"`: a JS-falsy style (undefined or the
empty string) falls back to the default. -/
def styleOrDefault (style : Option String) : String :=
  match style with
  | some s => if s = "" then "professional" else s
  | none => "professional"

/-- AIManager.executeAICommand: throws when no provider is configured,
otherwise dispatches the command key to the matching provider operation;
an unknown key throws `Unknown command: ...`.  The surrounding try/catch
only logs and rethrows the error unchanged. -/
def AIManager.executeAICommand (m : AIManager) (fetch : Fetch)
    (command text : String) (style : Option String) :
    Except String String × List Event :=
  match m.provider with
  | none =>
    (.error "AI provider not configured. Please set up your API key in settings.", [])
  | some p =>
    if command = "summarize" then p.summarizeText fetch text
    else if command = "improve" then p.improveWriting fetch text
    else if command = "style" then p.changeWritingStyle fetch text (styleOrDefault style)
    else if command = "complete" then p.completeText fetch text
    else (.error ("Unknown command: " ++ command), [])

/-- AIManager.initialize (named initStep here): reads the persisted config;
if present, stores it and calls setProvider with its fields.  Returns the
manager state after the call together with the thrown error, if any (the
config assignment happens before setProvider can throw, so it is kept even
on failure). -/
def AIManager.initStep (m : AIManager) (cfg : Option AIConfig) :
    AIManager × Option String :=
  match cfg with
  | none => (m, none)
  | some c =>
    let m1 : AIManager := { m with config := some c }
    match m1.setProvider c.provider c.apiKey with
    | .ok m2 => (m2, none)
    | .error e => (m1, some e)

/-- The operations callable on the Manager. -/
inductive ManagerOp where
  /-- Call `initialize()`, reading the given persisted config. -/
  | init (cfg : Option AIConfig)
  /-- Call `setProvider(name, key)`. -/
  | setProvider (name : String) (key : String)
  /-- Call `executeAICommand(command, text, style?)` against a vendor oracle. -/
  | execute (fetch : Fetch) (command : String) (text : String) (style : Option String)

/-- Whether the operation is one of the two configuring operations
(initialize / setProvider). -/
def ManagerOp.isConfigOp : ManagerOp → Bool
  | .execute _ _ _ _ => false
  | _ => true

/-- First component of an Except, as the thrown error if any. -/
def thrownError (r : Except String String) : Option String :=
  match r with
  | .error e => some e
  | .ok _ => none

/-- One Manager call as a state transition: the state after the call and
the error it threw, if any (a throw leaves already-performed field
assignments in place). -/
def AIManager.step (m : AIManager) : ManagerOp → AIManager × Option String
  | .init cfg => m.initStep cfg
  | .setProvider n k =>
    match m.setProvider n k with
    | .ok m2 => (m2, none)
    | .error e => (m, some e)
  | .execute fetch c t s => (m, thrownError (m.executeAICommand fetch c t s).fst)

/-- A block as returned by `Editor.getCurrentBlock()`. -/
structure Block where
  uuid : String
deriving DecidableEq

/-- The host editor state a command handler observes:
`Editor.getSelectedText()` (undefined or a string) and
`Editor.getCurrentBlock()` (null or a block). -/
structure Host where
  selectedText : Option String
  currentBlock : Option Block

/-- getSelectedText: throws on a JS-falsy result (undefined or the empty
string). -/
def getSelectedText (host : Host) : Except String String :=
  match host.selectedText with
  | none => .error "No text selected. Please select some text first."
  | some t =>
    if t = "" then .error "No text selected. Please select some text first."
    else .ok t

/-- The four registered slash commands. -/
inductive HandlerKind where
  | summarize
  | improve
  | formal
  | complete
deriving DecidableEq

/-- The in-progress message each handler shows. -/
def HandlerKind.progressMsg : HandlerKind → String
  | .summarize => "Summarizing text..."
  | .improve => "Improving text..."
  | .formal => "Changing style..."
  | .complete => "Completing text..."

/-- The Manager command key each handler passes. -/
def HandlerKind.command : HandlerKind → String
  | .summarize => "summarize"
  | .improve => "improve"
  | .formal => "style"
  | .complete => "complete"

/-- The style argument each handler passes (only the formal handler passes
one). -/
def HandlerKind.styleArg : HandlerKind → Option String
  | .formal => some "formal"
  | _ => none

/-- One command handler action (all four share this shape):
try { text = getSelectedText; showMsg(progress, info);
result = executeAICommand; block = getCurrentBlock;
if (block) insertBlock(block.uuid, result, after) }
catch (e) { showMsg(e.message, error) }.
Returns the emitted host/network events; it never propagates an error. -/
def commandAction (h : HandlerKind) (host : Host) (fetch : Fetch)
    (m : AIManager) : List Event :=
  match getSelectedText host with
  | .error e => [.showMsg e "error"]
  | .ok text =>
    let call := m.executeAICommand fetch h.command text h.styleArg
    match call.fst with
    | .error e => .showMsg h.progressMsg "info" :: call.snd ++ [.showMsg e "error"]
    | .ok result =>
      match host.currentBlock with
      | some block =>
        .showMsg h.progressMsg "info" :: call.snd ++ [.insertBlock block.uuid result]
      | none => .showMsg h.progressMsg "info" :: call.snd

/-- Whether the handler run fails (selection missing, or the Manager call
throws). -/
def handlerFails (h : HandlerKind) (host : Host) (fetch : Fetch)
    (m : AIManager) : Bool :=
  match getSelectedText host with
  | .error _ => true
  | .ok text => (thrownError (m.executeAICommand fetch h.command text h.styleArg).fst).isSome

/-! Fixtures used by witness theorems. -/

/-- A vendor oracle that always answers 200 OK with an empty body. -/
def mockFetch : Fetch := fun _ _ => ⟨true, "OK", Json.null⟩

/-- A well-formed OpenAI-shaped success response. -/
def okOpenAIResp : HttpResponse :=
  ⟨true, "OK",
    .obj [("choices",
      .arr [.obj [("message", .obj [("content", .str "A fox jumps.")])]])]⟩

/-- A well-formed Claude-shaped success response whose completion text
carries leading and trailing whitespace. -/
def wsClaudeResp : HttpResponse :=
  ⟨true, "OK", .obj [("content", .arr [.obj [("text", .str " A fox jumps. ")]])]⟩

/-! Trace lemmas: what events a Manager command execution can emit. -/

/-- Every trace of executeAICommand is either empty (the command never
reached a provider) or one provider-method entry followed by one network
request. -/
theorem executeAICommand_snd_shape (m : AIManager) (fetch : Fetch)
    (c t : String) (s : Option String) :
    (m.executeAICommand fetch c t s).snd = [] ∨
    ∃ pn mn url pr, (m.executeAICommand fetch c t s).snd =
      [.providerCall pn mn, .fetchCall url pr] := by
  unfold AIManager.executeAICommand
  cases m.provider with
  | none => exact Or.inl rfl
  | some p =>
    cases p <;> split_ifs <;>
      first
        | exact Or.inl rfl
        | exact Or.inr ⟨_, _, _, _, rfl⟩

/-- The trace of executeAICommand contains no block insertion, no
notification of any kind, and in particular no error notification. -/
theorem executeAICommand_trace (m : AIManager) (fetch : Fetch)
    (c t : String) (s : Option String) :
    (m.executeAICommand fetch c t s).snd.any Event.isInsert = false ∧
    (m.executeAICommand fetch c t s).snd.filter Event.isShowMsg = [] ∧
    (m.executeAICommand fetch c t s).snd.any Event.isErrorMsg = false := by
  rcases executeAICommand_snd_shape m fetch c t s with hs | ⟨pn, mn, url, pr, hs⟩ <;>
    rw [hs] <;> exact ⟨rfl, rfl, rfl⟩

/-- setProvider either installs a provider (only the `provider` field
changes) or throws, performing no assignment. -/
theorem setProvider_result (m : AIManager) (n k : String) :
    (∃ p, m.setProvider n k = .ok { m with provider := some p }) ∨
    m.setProvider n k = .error ("Unsupported AI provider: " ++ n) := by
  unfold AIManager.setProvider
  split_ifs with h1 h2
  · exact Or.inl ⟨_, rfl⟩
  · exact Or.inl ⟨_, rfl⟩
  · exact Or.inr rfl

/-! Claim theorems. -/

/-- Claim C1: with no Provider configured, executeAICommand always throws
`AI provider not configured. Please set up your API key in settings.` and
its trace is empty: no network request is made and no provider operation is
entered, for every command key, text, style and vendor oracle. -/
theorem executeAICommand_unconfigured (m : AIManager) (fetch : Fetch)
    (command text : String) (style : Option String) (h : m.provider = none) :
    m.executeAICommand fetch command text style =
      (.error "AI provider not configured. Please set up your API key in settings.", []) := by
  unfold AIManager.executeAICommand
  rw [h]

theorem executeAICommand_unconfigured_witness :
    (AIManager.mk none none).executeAICommand mockFetch "summarize" "hello" none =
      (.error "AI provider not configured. Please set up your API key in settings.", []) :=
  executeAICommand_unconfigured (AIManager.mk none none) mockFetch "summarize" "hello" none rfl

/-- Claim C4: with a configured Provider, a command key outside
{summarize, improve, style, complete} makes executeAICommand throw
`Unknown command: ...` with an empty trace: none of the Provider operations
is invoked and no network request is made. -/
theorem executeAICommand_unknown_command (m : AIManager) (fetch : Fetch)
    (prov : AIProvider) (command text : String) (style : Option String)
    (hp : m.provider = some prov)
    (h1 : command ≠ "summarize") (h2 : command ≠ "improve")
    (h3 : command ≠ "style") (h4 : command ≠ "complete") :
    m.executeAICommand fetch command text style =
      (.error ("Unknown command: " ++ command), []) := by
  unfold AIManager.executeAICommand
  rw [hp]
  simp [h1, h2, h3, h4]

theorem executeAICommand_unknown_command_witness :
    (AIManager.mk (some (.openai ⟨"k"⟩)) none).executeAICommand mockFetch "translate" "hello" none =
      (.error ("Unknown command: " ++ "translate"), []) :=
  executeAICommand_unknown_command (AIManager.mk (some (.openai ⟨"k"⟩)) none)
    mockFetch (.openai ⟨"k"⟩) "translate" "hello" none rfl
    (by decide) (by decide) (by decide) (by decide)

/-- Claim C5: a `style` command with no explicit style argument invokes the
active Provider's changeWritingStyle operation with the style
`professional` (result and emitted events coincide exactly). -/
theorem style_defaults_to_professional (m : AIManager) (fetch : Fetch)
    (text : String) (prov : AIProvider) (hp : m.provider = some prov) :
    m.executeAICommand fetch "style" text none =
      prov.changeWritingStyle fetch text "professional" := by
  simp only [AIManager.executeAICommand, hp]
  rw [if_neg (by decide), if_neg (by decide), if_pos trivial]
  rfl

theorem style_defaults_to_professional_witness :
    (AIManager.mk (some (.openai ⟨"k"⟩)) none).executeAICommand mockFetch "style" "hello" none =
      (AIProvider.openai ⟨"k"⟩).changeWritingStyle mockFetch "hello" "professional" :=
  style_defaults_to_professional (AIManager.mk (some (.openai ⟨"k"⟩)) none)
    mockFetch "hello" (.openai ⟨"k"⟩) rfl

/-- A non-success mock vendor response. -/
def badResp : HttpResponse := ⟨false, "Bad Request", Json.null⟩

/-- Claim C3: for each supported provider name in any letter casing,
setProvider installs a Provider whose name field matches that vendor and
throws nothing; for every unrecognized name it throws
`Unsupported AI provider: ...` and the Manager state — in particular the
previously active Provider — is unchanged. -/
theorem setProvider_supported_and_unsupported (m : AIManager) (name key : String) :
    (jsToLower name = "openai" →
      m.step (.setProvider name key) =
        ({ m with provider := some (.openai ⟨key⟩) }, none) ∧
      (AIProvider.openai ⟨key⟩).name = "OpenAI") ∧
    (jsToLower name = "claude" →
      m.step (.setProvider name key) =
        ({ m with provider := some (.claude ⟨key⟩) }, none) ∧
      (AIProvider.claude ⟨key⟩).name = "Claude") ∧
    (jsToLower name ≠ "openai" → jsToLower name ≠ "claude" →
      m.step (.setProvider name key) =
        (m, some ("Unsupported AI provider: " ++ name))) := by
  refine ⟨fun h => ?_, fun h => ?_, fun h1 h2 => ?_⟩
  · constructor
    · simp [AIManager.step, AIManager.setProvider, h]
    · rfl
  · constructor
    · simp [AIManager.step, AIManager.setProvider, h]
    · rfl
  · simp [AIManager.step, AIManager.setProvider, h1, h2]

theorem setProvider_supported_witness :
    (AIManager.mk none none).step (.setProvider "OpenAI" "k") =
      ({ AIManager.mk none none with provider := some (.openai ⟨"k"⟩) }, none) ∧
    (AIProvider.openai ⟨"k"⟩).name = "OpenAI" :=
  (setProvider_supported_and_unsupported (AIManager.mk none none) "OpenAI" "k").1 (by decide)

/-- Claim C7: for every provider variant and every operation, a non-success
HTTP status makes the operation throw `API request failed: {statusText}`
(template notation in this comment only), a message that contains the
response's status text. -/
theorem provider_nonOk_status_in_message (prov : AIProvider) (op : ProviderOpKind)
    (resp : HttpResponse) (text style : String) (hok : resp.ok = false) :
    (prov.runOp op (fun _ _ => resp) text style).fst =
      .error ("API request failed: " ++ resp.statusText) ∧
    ∃ pre, "API request failed: " ++ resp.statusText = pre ++ resp.statusText := by
  refine ⟨?_, ⟨"API request failed: ", rfl⟩⟩
  cases prov <;> cases op <;>
    simp [AIProvider.runOp, AIProvider.summarizeText, AIProvider.improveWriting,
      AIProvider.changeWritingStyle, AIProvider.completeText,
      OpenAIProvider.summarizeText, OpenAIProvider.improveWriting,
      OpenAIProvider.changeWritingStyle, OpenAIProvider.completeText,
      ClaudeProvider.summarizeText, ClaudeProvider.improveWriting,
      ClaudeProvider.changeWritingStyle, ClaudeProvider.completeText,
      OpenAIProvider.makeRequest, ClaudeProvider.makeRequest, hok]

theorem provider_nonOk_status_witness :
    ((AIProvider.openai ⟨"k"⟩).runOp .summarize (fun _ _ => badResp) "t" "s").fst =
      .error ("API request failed: " ++ badResp.statusText) ∧
    ∃ pre, "API request failed: " ++ badResp.statusText = pre ++ badResp.statusText :=
  provider_nonOk_status_in_message (.openai ⟨"k"⟩) .summarize badResp "t" "s" rfl

/-- Claim C2 as stated is false: the Claude provider returns
`data.content[0].text` without trimming.  On a well-formed mock response
whose completion text is ` A fox jumps. `, its summarize operation returns
the untrimmed string, which differs from the trimmed one. -/
theorem claude_untrimmed_counterexample :
    ((AIProvider.claude ⟨"k"⟩).runOp .summarize (fun _ _ => wsClaudeResp) "t" "s").fst =
      .ok " A fox jumps. " ∧
    jsTrim " A fox jumps. " = "A fox jumps." ∧
    ((AIProvider.claude ⟨"k"⟩).runOp .summarize (fun _ _ => wsClaudeResp) "t" "s").fst ≠
      .ok (jsTrim " A fox jumps. ") := by
  refine ⟨rfl, by decide, ?_⟩
  intro h
  rw [show ((AIProvider.claude ⟨"k"⟩).runOp .summarize
      (fun _ _ => wsClaudeResp) "t" "s").fst = .ok " A fox jumps. " from rfl] at h
  injection h with h2
  exact absurd h2 (by decide)

/-- Claim C2 (amended): on a well-formed vendor response, the OpenAI
provider's operations return the extracted completion text trimmed, while
the Claude provider's operations return the extracted completion text
exactly as extracted, without trimming. -/
theorem provider_wellformed_extraction (p : OpenAIProvider) (q : ClaudeProvider)
    (op : ProviderOpKind) (resp : HttpResponse) (text style s : String)
    (hok : resp.ok = true) :
    (openAIExtract resp.body = some s →
      ((AIProvider.openai p).runOp op (fun _ _ => resp) text style).fst = .ok (jsTrim s)) ∧
    (claudeExtract resp.body = some s →
      ((AIProvider.claude q).runOp op (fun _ _ => resp) text style).fst = .ok s) := by
  constructor <;> intro hx <;> cases op <;>
    simp [AIProvider.runOp, AIProvider.summarizeText, AIProvider.improveWriting,
      AIProvider.changeWritingStyle, AIProvider.completeText,
      OpenAIProvider.summarizeText, OpenAIProvider.improveWriting,
      OpenAIProvider.changeWritingStyle, OpenAIProvider.completeText,
      ClaudeProvider.summarizeText, ClaudeProvider.improveWriting,
      ClaudeProvider.changeWritingStyle, ClaudeProvider.completeText,
      OpenAIProvider.makeRequest, ClaudeProvider.makeRequest, hok, hx]

theorem provider_wellformed_extraction_witness :
    ((AIProvider.openai ⟨"k"⟩).runOp .summarize (fun _ _ => okOpenAIResp) "t" "s").fst =
      .ok (jsTrim "A fox jumps.") :=
  (provider_wellformed_extraction ⟨"k"⟩ ⟨"k"⟩ .summarize okOpenAIResp "t" "s"
    "A fox jumps." rfl).1 rfl

/-- Claim C8: once the Manager holds an active Provider, no Manager
operation (initialize, setProvider with any argument, executeAICommand with
any arguments, including throwing calls) returns it to the unconfigured
state; and the transition from unconfigured to configured happens only
through a setProvider or initialize call that throws nothing. -/
theorem manager_never_unconfigured (m : AIManager) (op : ManagerOp) :
    (m.provider.isSome = true → ((m.step op).fst.provider).isSome = true) ∧
    (m.provider = none → ((m.step op).fst.provider).isSome = true →
      (m.step op).snd = none ∧ op.isConfigOp = true) := by
  cases op with
  | init cfg =>
    cases cfg with
    | none =>
      exact ⟨fun h => h, fun h1 h2 => by
        simp [AIManager.step, AIManager.initStep, h1] at h2⟩
    | some c =>
      rcases setProvider_result { m with config := some c } c.provider c.apiKey with
        ⟨p, hsp⟩ | hsp
      · refine ⟨fun h => ?_, fun h1 h2 => ?_⟩
        · simp [AIManager.step, AIManager.initStep, hsp]
        · simp [AIManager.step, AIManager.initStep, hsp, ManagerOp.isConfigOp]
      · refine ⟨fun h => ?_, fun h1 h2 => ?_⟩
        · simpa [AIManager.step, AIManager.initStep, hsp] using h
        · rw [show ({ m with config := some c } : AIManager) =
              { provider := m.provider, config := some c } from rfl, h1] at hsp
          simp [AIManager.step, AIManager.initStep, hsp, h1] at h2
  | setProvider n k =>
    rcases setProvider_result m n k with ⟨p, hsp⟩ | hsp
    · refine ⟨fun h => ?_, fun h1 h2 => ?_⟩
      · simp [AIManager.step, hsp]
      · simp [AIManager.step, hsp, ManagerOp.isConfigOp]
    · refine ⟨fun h => ?_, fun h1 h2 => ?_⟩
      · simpa [AIManager.step, hsp] using h
      · simp [AIManager.step, hsp, h1] at h2
  | execute fetch c t s =>
    refine ⟨fun h => h, fun h1 h2 => ?_⟩
    simp [AIManager.step, h1] at h2

theorem manager_never_unconfigured_witness :
    ((AIManager.mk (some (.openai ⟨"k"⟩)) none).step
        (.execute mockFetch "summarize" "t" none)).fst.provider.isSome = true :=
  (manager_never_unconfigured (AIManager.mk (some (.openai ⟨"k"⟩)) none)
    (.execute mockFetch "summarize" "t" none)).1 rfl

theorem isInsert_showMsg (msg lvl : String) :
    Event.isInsert (.showMsg msg lvl) = false := rfl

theorem isShowMsg_showMsg (msg lvl : String) :
    Event.isShowMsg (.showMsg msg lvl) = true := rfl

theorem isErrorMsg_infoMsg (msg : String) :
    Event.isErrorMsg (.showMsg msg "info") = false := rfl

theorem isErrorMsg_errMsg (msg : String) :
    Event.isErrorMsg (.showMsg msg "error") = true := rfl

/-- Claim C6: whenever a command handler run fails (missing selection,
unconfigured provider, unknown command, vendor or network error), the
handler inserts no block — the document is unchanged — and it shows the
error as a notification instead of propagating it (commandAction is total:
the catch converts every thrown error into a showMsg event). -/
theorem handler_failure_frame (h : HandlerKind) (host : Host) (fetch : Fetch)
    (m : AIManager) (hf : handlerFails h host fetch m = true) :
    (commandAction h host fetch m).any Event.isInsert = false ∧
    (commandAction h host fetch m).any Event.isErrorMsg = true := by
  unfold handlerFails at hf
  cases hsel : getSelectedText host with
  | error e =>
    have heq : commandAction h host fetch m = [.showMsg e "error"] := by
      simp [commandAction, hsel]
    rw [heq]
    exact ⟨rfl, rfl⟩
  | ok text =>
    simp only [hsel] at hf
    cases hres : (m.executeAICommand fetch h.command text h.styleArg).fst with
    | ok r =>
      rw [hres] at hf
      simp [thrownError] at hf
    | error e =>
      have heq : commandAction h host fetch m =
          .showMsg h.progressMsg "info" ::
            (m.executeAICommand fetch h.command text h.styleArg).snd ++
            [.showMsg e "error"] := by
        simp [commandAction, hsel, hres]
      obtain ⟨t1, _, _⟩ := executeAICommand_trace m fetch h.command text h.styleArg
      rw [heq]
      constructor
      · simp [List.any_append, t1, isInsert_showMsg]
      · simp [List.any_append, isErrorMsg_errMsg]

theorem handler_failure_frame_witness :
    (commandAction .summarize ⟨none, none⟩ mockFetch (AIManager.mk none none)).any
      Event.isInsert = false ∧
    (commandAction .summarize ⟨none, none⟩ mockFetch (AIManager.mk none none)).any
      Event.isErrorMsg = true :=
  handler_failure_frame .summarize ⟨none, none⟩ mockFetch (AIManager.mk none none) rfl

/-- Claim C9: when the host reports no selected text (absent or empty
selection), the handler emits exactly one event, the error notification
`No text selected. Please select some text first.` — in particular no
network request is made and the Manager is never reached (the result is the
same for every manager and vendor oracle). -/
theorem no_selection_exact_message (h : HandlerKind) (host : Host) (fetch : Fetch)
    (m : AIManager)
    (hsel : host.selectedText = none ∨ host.selectedText = some "") :
    commandAction h host fetch m =
      [.showMsg "No text selected. Please select some text first." "error"] := by
  rcases hsel with hs | hs <;> simp [commandAction, getSelectedText, hs]

theorem no_selection_exact_message_witness :
    commandAction .summarize ⟨none, none⟩ mockFetch (AIManager.mk none none) =
      [.showMsg "No text selected. Please select some text first." "error"] :=
  no_selection_exact_message .summarize ⟨none, none⟩ mockFetch
    (AIManager.mk none none) (Or.inl rfl)

/-- Claim C10: when the AI call succeeds but getCurrentBlock returns no
block, the handler completes silently as to the outcome: the result is
dropped, no block is inserted, no error notification is shown, and the only
notification in the whole run is the in-progress message emitted before the
AI call. -/
theorem missing_block_drops_result (h : HandlerKind) (host : Host) (fetch : Fetch)
    (m : AIManager) (text r : String)
    (hsel : getSelectedText host = .ok text)
    (hok : (m.executeAICommand fetch h.command text h.styleArg).fst = .ok r)
    (hblk : host.currentBlock = none) :
    commandAction h host fetch m =
      .showMsg h.progressMsg "info" ::
        (m.executeAICommand fetch h.command text h.styleArg).snd ∧
    (commandAction h host fetch m).any Event.isInsert = false ∧
    (commandAction h host fetch m).any Event.isErrorMsg = false ∧
    (commandAction h host fetch m).filter Event.isShowMsg =
      [.showMsg h.progressMsg "info"] := by
  have heq : commandAction h host fetch m =
      .showMsg h.progressMsg "info" ::
        (m.executeAICommand fetch h.command text h.styleArg).snd := by
    simp [commandAction, hsel, hok, hblk]
  obtain ⟨t1, t2, t3⟩ := executeAICommand_trace m fetch h.command text h.styleArg
  refine ⟨heq, ?_, ?_, ?_⟩ <;> rw [heq]
  · simp [t1, isInsert_showMsg]
  · simp [t3, isErrorMsg_infoMsg]
  · simp [List.filter_cons, t2, isShowMsg_showMsg]

theorem missing_block_drops_result_witness :
    commandAction .summarize ⟨some "The quick brown fox jumps.", none⟩
        (fun _ _ => okOpenAIResp) (AIManager.mk (some (.openai ⟨"k"⟩)) none) =
      .showMsg (HandlerKind.summarize).progressMsg "info" ::
        ((AIManager.mk (some (.openai ⟨"k"⟩)) none).executeAICommand
          (fun _ _ => okOpenAIResp) (HandlerKind.summarize).command
          "The quick brown fox jumps." (HandlerKind.summarize).styleArg).snd ∧
    (commandAction .summarize ⟨some "The quick brown fox jumps.", none⟩
        (fun _ _ => okOpenAIResp) (AIManager.mk (some (.openai ⟨"k"⟩)) none)).any
      Event.isInsert = false ∧
    (commandAction .summarize ⟨some "The quick brown fox jumps.", none⟩
        (fun _ _ => okOpenAIResp) (AIManager.mk (some (.openai ⟨"k"⟩)) none)).any
      Event.isErrorMsg = false ∧
    (commandAction .summarize ⟨some "The quick brown fox jumps.", none⟩
        (fun _ _ => okOpenAIResp) (AIManager.mk (some (.openai ⟨"k"⟩)) none)).filter
      Event.isShowMsg = [.showMsg (HandlerKind.summarize).progressMsg "info"] :=
  missing_block_drops_result .summarize ⟨some "The quick brown fox jumps.", none⟩
    (fun _ _ => okOpenAIResp) (AIManager.mk (some (.openai ⟨"k"⟩)) none)
    "The quick brown fox jumps." "A fox jumps." rfl rfl rfl

end AIHelper
